import Mathlib

/-!
# Verification of the FlexFX sound-recipe engine (`flexFX.ts`)

Shallow embedding of the pxt-flexfx extension. Numbers are modelled as exact
rationals (`ℚ`); the source's arithmetic is `+ - * /`, `Math.min`, `Math.max`
and `Math.floor`, all exact on rationals.

The source smuggles three kinds of segment through one `string[]`:
a compiled sound-expression string, an in-performance gap `"_"+n`
(`compilePlay`, the `skipPartB` branch), and a queued-pause marker `"s"+n`
(`performSilence`). We model the array elements with the inductive `Segment`;
the worker's `charAt(0) == 's'` / `charAt(0) == '_'` tests become matches on
the `pauseTag` / `gap` constructors.

Stateful functions (`playFlexFX`, `performSilence`, `awaitPlayStart`,
`awaitAllFinished`, `activatePlayer`, `player`) are modelled as pure
state-transformers `State → State × List Act`, where `Act` records the
externally visible calls in order: `pause`, `music.playSoundEffect`,
`control.raiseEvent`, `control.waitForEvent`, `control.inBackground`, and the
`playerPlaying` flag writes. The worker reads `playerStopped` once per loop
iteration; in this single-thread model the flag cannot change mid-run, so it
is a constant parameter of `player`.
-/

/-- One element of a `Play.parts` array (`flexFX.ts`, class `Play`):
`sound` is the string built by `music.createSoundEffect(wave,f1,f2,v1,v2,dur,effect,attack)`;
`gap n` is the string `"_"+n` pushed for a silent part B;
`pauseTag n` is the string `"s"+n` pushed by `performSilence`. -/
inductive Segment where
  | sound (wave f1 f2 v1 v2 dur effect attack : ℚ)
  | gap (ms : ℤ)
  | pauseTag (ms : ℤ)
deriving DecidableEq

/-- A compiled performance: `class Play { parts: string[] }`. -/
structure Play where
  parts : List Segment
deriving DecidableEq

/-- The recipe class `FlexFX` (properties only; methods are modelled as
functions below). Wave/attack/effect enum codes are carried as rationals. -/
structure FlexFX where
  id : String
  playPartA : Bool
  waveA : ℚ
  attackA : ℚ
  effectA : ℚ
  timeRatioA : ℚ
  skipPartB : Bool
  playPartB : Bool
  waveB : ℚ
  attackB : ℚ
  effectB : ℚ
  timeRatioB : ℚ
  playPartC : Bool
  waveC : ℚ
  attackC : ℚ
  effectC : ℚ
  timeRatioC : ℚ
  freqRatio0 : ℚ
  volRatio0 : ℚ
  freqRatio1 : ℚ
  volRatio1 : ℚ
  usesPoint2 : Bool
  freqRatio2 : ℚ
  volRatio2 : ℚ
  usesPoint3 : Bool
  freqRatio3 : ℚ
  volRatio3 : ℚ
  defaultFreq : ℚ
  defaultVol : ℚ
  defaultMs : ℚ
deriving DecidableEq

/-- `constructor(id)`: only the five flags are initialised (to `false`);
`skipPartB` is left `undefined` in the source, which is falsy, so `false`
here. The numeric properties are `undefined` until a setter runs; we use `0`
placeholders (the claim-relevant paths always set them before use). -/
def FlexFX.new (id : String) : FlexFX :=
  { id := id
    playPartA := false, waveA := 0, attackA := 0, effectA := 0, timeRatioA := 0
    skipPartB := false
    playPartB := false, waveB := 0, attackB := 0, effectB := 0, timeRatioB := 0
    playPartC := false, waveC := 0, attackC := 0, effectC := 0, timeRatioC := 0
    freqRatio0 := 0, volRatio0 := 0, freqRatio1 := 0, volRatio1 := 0
    usesPoint2 := false, freqRatio2 := 0, volRatio2 := 0
    usesPoint3 := false, freqRatio3 := 0, volRatio3 := 0
    defaultFreq := 0, defaultVol := 0, defaultMs := 0 }

/-- `goodFreqRatio(freq) = Math.min(Math.max(freq, 0), 2000)`. -/
def goodFreqRatio (freq : ℚ) : ℚ := min (max freq 0) 2000

/-- `goodVolRatio(vol) = Math.min(Math.max(vol, 0), 100)`. -/
def goodVolRatio (vol : ℚ) : ℚ := min (max vol 0) 100

/-- `goodTimeRatio(time, timeLeft) = Math.min(Math.max(time, 0), timeLeft)`. -/
def goodTimeRatio (time timeLeft : ℚ) : ℚ := min (max time 0) timeLeft

/-- `FlexFX.setPartA(freq0, vol0, wave, attack, effect, freq1, vol1, ms1)`. -/
def FlexFX.setPartA (t : FlexFX) (freq0 vol0 wave attack effect freq1 vol1 ms1 : ℚ) : FlexFX :=
  { t with
    freqRatio0 := goodFreqRatio freq0
    volRatio0 := goodVolRatio vol0
    freqRatio1 := goodFreqRatio freq1
    volRatio1 := goodVolRatio vol1
    timeRatioA := goodTimeRatio ms1 1
    waveA := wave, attackA := attack, effectA := effect
    playPartA := true
    playPartB := false, playPartC := false
    usesPoint2 := false, usesPoint3 := false }

/-- `FlexFX.setPartB(wave, attack, effect, freq2, vol2, ms2)`. -/
def FlexFX.setPartB (t : FlexFX) (wave attack effect freq2 vol2 ms2 : ℚ) : FlexFX :=
  { t with
    freqRatio2 := goodFreqRatio freq2
    volRatio2 := goodVolRatio vol2
    timeRatioB := goodTimeRatio ms2 (1 - t.timeRatioA)
    waveB := wave, attackB := attack, effectB := effect
    playPartB := true
    usesPoint2 := true }

/-- `FlexFX.silentPartB(freq2, vol2, ms2)`. -/
def FlexFX.silentPartB (t : FlexFX) (freq2 vol2 ms2 : ℚ) : FlexFX :=
  { t with
    freqRatio2 := goodFreqRatio freq2
    volRatio2 := goodVolRatio vol2
    timeRatioB := goodTimeRatio ms2 (1 - t.timeRatioA)
    skipPartB := true }

/-- `FlexFX.setPartC(wave, attack, effect, freq3, vol3, ms3)`. -/
def FlexFX.setPartC (t : FlexFX) (wave attack effect freq3 vol3 ms3 : ℚ) : FlexFX :=
  { t with
    freqRatio3 := goodFreqRatio freq3
    volRatio3 := goodVolRatio vol3
    timeRatioC := goodTimeRatio ms3 (1 - t.timeRatioA - t.timeRatioB)
    waveC := wave, attackC := attack, effectC := effect
    playPartC := true
    usesPoint2 := true, usesPoint3 := true }

/-- `FlexFX.setDefaults(freq, vol, ms)`. -/
def FlexFX.setDefaults (t : FlexFX) (freq vol ms : ℚ) : FlexFX :=
  { t with defaultFreq := freq, defaultVol := vol, defaultMs := ms }

/-- The body of `FlexFX.compilePlay` after the three parameter-defaulting
lines: points 0..3 are scaled by the given `freq`/`vol`/`ms` and the parts
are pushed in order A, B (sound, or `"_"+Math.floor(ms*timeRatioB)` gap when
`skipPartB` and not `playPartB`), C. -/
def compilePlayCore (t : FlexFX) (freq vol ms : ℚ) : Play :=
  let f0 := freq * t.freqRatio0
  let v0 := vol * t.volRatio0
  let f1 := freq * t.freqRatio1
  let v1 := vol * t.volRatio1
  let ms1 := ms * t.timeRatioA
  let f2 := if t.usesPoint2 then freq * t.freqRatio2 else 0
  let v2 := if t.usesPoint2 then vol * t.volRatio2 else 0
  let ms2 := if t.usesPoint2 then ms * t.timeRatioB else 0
  let f3 := if t.usesPoint3 then freq * t.freqRatio3 else 0
  let v3 := if t.usesPoint3 then vol * t.volRatio3 else 0
  let ms3 := if t.usesPoint3 then ms * t.timeRatioC else 0
  { parts :=
      (if t.playPartA then
        [Segment.sound t.waveA f0 f1 v0 v1 ms1 t.effectA t.attackA] else [])
      ++ (if t.playPartB then
            [Segment.sound t.waveB f1 f2 v1 v2 ms2 t.effectB t.attackB]
          else if t.skipPartB then
            [Segment.gap (Int.floor (ms * t.timeRatioB))]
          else [])
      ++ (if t.playPartC then
            [Segment.sound t.waveC f2 f3 v2 v3 ms3 t.effectC t.attackC] else []) }

/-- `FlexFX.compilePlay(freq, vol, ms)`: a zero argument picks up the stored
performance default for that axis, then the Play is built. (The source also
pushes the result onto `playList`; the callers below model that append.) -/
def compilePlay (t : FlexFX) (freq vol ms : ℚ) : Play :=
  let freq1 := if freq = 0 then t.defaultFreq else freq
  let vol1 := if vol = 0 then t.defaultVol else vol
  let ms1 := if ms = 0 then t.defaultMs else ms
  compilePlayCore t freq1 vol1 ms1

/-- Duration of a segment: the `dur` argument of `createSoundEffect` for a
sound, the encoded integer for a gap or queued pause. -/
def segDur : Segment → ℚ
  | .sound _ _ _ _ _ d _ _ => d
  | .gap n => (n : ℚ)
  | .pauseTag n => (n : ℚ)

/-- Total duration of a compiled Play's segments. -/
def playDur (p : Play) : ℚ := (p.parts.map segDur).sum

/-- Start point (frequency, volume) of a segment, when it is a sound. -/
def segStartFV : Segment → Option (ℚ × ℚ)
  | .sound _ f1 _ v1 _ _ _ _ => some (f1, v1)
  | _ => none

/-- End point (frequency, volume) of a segment, when it is a sound. -/
def segEndFV : Segment → Option (ℚ × ℚ)
  | .sound _ _ f2 _ v2 _ _ _ => some (f2, v2)
  | _ => none

/-- Where the `i`-th part of a parts list starts (sounds only). -/
def partStartFV (ps : List Segment) (i : Nat) : Option (ℚ × ℚ) :=
  ps[i]?.bind segStartFV

/-- Where the `i`-th part of a parts list ends (sounds only). -/
def partEndFV (ps : List Segment) (i : Nat) : Option (ℚ × ℚ) :=
  ps[i]?.bind segEndFV

/-- C6: `compilePlay` is `compilePlayCore` after independent per-axis
defaulting: an argument equal to 0 is replaced by the stored default for that
axis, a nonzero argument is used unchanged, and the substitution on one axis
never touches another axis. -/
theorem C6_zero_args_pick_up_defaults (t : FlexFX) (freq vol ms : ℚ) :
    compilePlay t freq vol ms =
      compilePlayCore t (if freq = 0 then t.defaultFreq else freq)
        (if vol = 0 then t.defaultVol else vol)
        (if ms = 0 then t.defaultMs else ms) := by
  rfl

/-- C4: profile continuity. For a recipe with sounding parts A and B, part A's
segment ends at `(freq·freqRatio1, vol·volRatio1)` — after defaulting — and
part B's segment starts at exactly that point; when a sounding part C follows
(`setPartC` always sets `usesPoint2`), part B ends at
`(freq·freqRatio2, vol·volRatio2)` and part C starts there. -/
theorem C4_profile_continuity (t : FlexFX) (freq vol ms : ℚ)
    (hA : t.playPartA = true) (hB : t.playPartB = true) :
    (partEndFV (compilePlay t freq vol ms).parts 0 =
        some ((if freq = 0 then t.defaultFreq else freq) * t.freqRatio1,
              (if vol = 0 then t.defaultVol else vol) * t.volRatio1) ∧
      partStartFV (compilePlay t freq vol ms).parts 1 =
        some ((if freq = 0 then t.defaultFreq else freq) * t.freqRatio1,
              (if vol = 0 then t.defaultVol else vol) * t.volRatio1)) ∧
    (t.playPartC = true → t.usesPoint2 = true →
      (partEndFV (compilePlay t freq vol ms).parts 1 =
          some ((if freq = 0 then t.defaultFreq else freq) * t.freqRatio2,
                (if vol = 0 then t.defaultVol else vol) * t.volRatio2) ∧
        partStartFV (compilePlay t freq vol ms).parts 2 =
          some ((if freq = 0 then t.defaultFreq else freq) * t.freqRatio2,
                (if vol = 0 then t.defaultVol else vol) * t.volRatio2))) := by
  constructor
  · simp [compilePlay, compilePlayCore, partEndFV, partStartFV, hA, hB,
      segEndFV, segStartFV]
  · intro hC h2
    simp [compilePlay, compilePlayCore, partEndFV, partStartFV, hA, hB, hC, h2,
      segEndFV, segStartFV]

/-- A concrete two-sounding-part recipe used as the C4 witness input. -/
def sampleAB : FlexFX :=
  ((FlexFX.new "w").setPartA 1 1 0 0 0 2 (1/2) (1/2)).setPartB 0 0 0 (1/4) (3/4) (1/4)

/-- Witness for C4 at a concrete two-part recipe: part A ends exactly where
part B starts, at the point (200, 20). -/
theorem C4_profile_continuity_witness :
    partEndFV (compilePlay sampleAB 100 40 1000).parts 0 =
      partStartFV (compilePlay sampleAB 100 40 1000).parts 1 ∧
    partEndFV (compilePlay sampleAB 100 40 1000).parts 0 = some ((200 : ℚ), (20 : ℚ)) := by
  have h := (C4_profile_continuity sampleAB 100 40 1000 (by decide) (by decide)).1
  refine ⟨h.1.trans h.2.symm, h.1.trans ?_⟩
  norm_num [sampleAB, FlexFX.new, FlexFX.setPartA, FlexFX.setPartB,
    goodFreqRatio, goodVolRatio, goodTimeRatio]

/-- Sum of the `timeRatio` values of the parts a recipe declares: part A when
`playPartA`, part B when it is sounding (`playPartB`) or a silent gap
(`skipPartB`), part C when `playPartC`. -/
def declaredRatioSum (t : FlexFX) : ℚ :=
  (if t.playPartA then t.timeRatioA else 0) +
  (if t.playPartB || t.skipPartB then t.timeRatioB else 0) +
  (if t.playPartC then t.timeRatioC else 0)

/-- C1: for a stored recipe whose flags are consistent with the setters
(`setPartB` always sets `usesPoint2`, `setPartC` always sets `usesPoint3`)
and whose declared time-ratios sum to 1, compiling with a nonzero duration
`ms` gives segment durations summing to `ms` exactly when every part is a
sound, and to within 1 ms below `ms` when part B is a silent gap (whose
duration is floored). -/
theorem C1_segment_durations_sum (t : FlexFX) (freq vol ms : ℚ)
    (hA : t.playPartA = true)
    (hB2 : t.playPartB = true → t.usesPoint2 = true)
    (hC3 : t.playPartC = true → t.usesPoint3 = true)
    (hsum : declaredRatioSum t = 1)
    (hms : ms ≠ 0) :
    ((t.playPartB = true ∨ t.skipPartB = false) →
        playDur (compilePlay t freq vol ms) = ms) ∧
    (t.playPartB = false → t.skipPartB = true →
        ms - 1 < playDur (compilePlay t freq vol ms) ∧
          playDur (compilePlay t freq vol ms) ≤ ms) := by
  unfold declaredRatioSum at hsum
  constructor
  · intro hOr
    cases hPB : t.playPartB with
    | false =>
      have hSk : t.skipPartB = false := by
        rcases hOr with h | h
        · rw [hPB] at h; exact absurd h (by simp)
        · exact h
      cases hPC : t.playPartC with
      | false =>
        simp only [hPB, hPC, hSk] at hsum
        simp [compilePlay, compilePlayCore, playDur, hA, hPB, hPC, hSk, hms, segDur]
        simp [hA] at hsum
        linear_combination hsum
      | true =>
        have h3 : t.usesPoint3 = true := hC3 hPC
        simp only [hPB, hPC, hSk] at hsum
        simp [compilePlay, compilePlayCore, playDur, hA, hPB, hPC, hSk, h3, hms, segDur]
        simp [hA] at hsum
        linear_combination ms * hsum
    | true =>
      have h2 : t.usesPoint2 = true := hB2 hPB
      cases hPC : t.playPartC with
      | false =>
        simp only [hPB, hPC] at hsum
        simp [compilePlay, compilePlayCore, playDur, hA, hPB, hPC, h2, hms, segDur]
        simp [hA] at hsum
        linear_combination ms * hsum
      | true =>
        have h3 : t.usesPoint3 = true := hC3 hPC
        simp only [hPB, hPC] at hsum
        simp [compilePlay, compilePlayCore, playDur, hA, hPB, hPC, h2, h3, hms, segDur]
        simp [hA] at hsum
        linear_combination ms * hsum
  · intro hPB hSk
    have hfl1 : ((Int.floor (ms * t.timeRatioB) : ℤ) : ℚ) ≤ ms * t.timeRatioB :=
      Int.floor_le _
    have hfl2 : ms * t.timeRatioB - 1 < ((Int.floor (ms * t.timeRatioB) : ℤ) : ℚ) :=
      Int.sub_one_lt_floor _
    cases hPC : t.playPartC with
    | false =>
      simp only [hPB, hPC, hSk] at hsum
      simp [compilePlay, compilePlayCore, playDur, hA, hPB, hPC, hSk, hms, segDur]
      simp [hA] at hsum
      have hkey : ms * t.timeRatioA + ms * t.timeRatioB = ms := by
        linear_combination ms * hsum
      constructor <;> linarith
    | true =>
      have h3 : t.usesPoint3 = true := hC3 hPC
      simp only [hPB, hPC, hSk] at hsum
      simp [compilePlay, compilePlayCore, playDur, hA, hPB, hPC, hSk, h3, hms, segDur]
      simp [hA] at hsum
      have hkey : ms * t.timeRatioA + ms * t.timeRatioB + ms * t.timeRatioC = ms := by
        linear_combination ms * hsum
      constructor <;> linarith

/-- A concrete two-sounding-part recipe with ratios 1/2 + 1/2. -/
def sampleSound2 : FlexFX :=
  { FlexFX.new "s2" with
    playPartA := true, playPartB := true, usesPoint2 := true,
    timeRatioA := 1/2, timeRatioB := 1/2 }

/-- A concrete double recipe (sound, silent gap, sound): 2/5 + 1/10 + 1/2. -/
def sampleDouble : FlexFX :=
  { FlexFX.new "d" with
    playPartA := true, skipPartB := true, playPartC := true,
    usesPoint2 := true, usesPoint3 := true,
    timeRatioA := 2/5, timeRatioB := 1/10, timeRatioC := 1/2 }

/-- Witness for C1: an all-sound recipe compiles to durations summing to
exactly 1000; a recipe with a silent gap compiles to within 1 ms of 1000. -/
theorem C1_segment_durations_sum_witness :
    playDur (compilePlay sampleSound2 1 1 1000) = 1000 ∧
    ((1000 : ℚ) - 1 < playDur (compilePlay sampleDouble 1 1 1000) ∧
      playDur (compilePlay sampleDouble 1 1 1000) ≤ 1000) := by
  constructor
  · exact (C1_segment_durations_sum sampleSound2 1 1 1000 (by decide) (by decide)
      (by decide)
      (by norm_num [declaredRatioSum, sampleSound2, FlexFX.new])
      (by norm_num)).1 (Or.inl (by decide))
  · exact (C1_segment_durations_sum sampleDouble 1 1 1000 (by decide) (by decide)
      (by decide)
      (by norm_num [declaredRatioSum, sampleDouble, FlexFX.new])
      (by norm_num)).2 (by decide) (by decide)

/-- The recipe built by `createFlexFX` before it is stored: one part covering
the whole duration (`setPartA(..., 1.0)`), then the defaults. -/
def createFlexFXTarget (id : String)
    (startPitchPercent startVolPercent wave attack effect
      endPitchPercent endVolPercent pitch volume duration : ℚ) : FlexFX :=
  (((FlexFX.new id).setPartA (startPitchPercent/100) (startVolPercent/100)
      wave attack effect (endPitchPercent/100) (endVolPercent/100) 1).setDefaults
    pitch volume duration)

/-- The recipe built by `create2PartFlexFX` before it is stored. The source
passes `(100 - timePercentA / 100)` — division binds tighter, so this is
`100 - tA/100`, far above the remaining budget; `goodTimeRatio` clamps it
back down to `1 - timeRatioA`. -/
def create2PartFlexFXTarget (id : String)
    (startPitchPercent startVolPercent waveA attackA effectA
      midPitchPercent midVolPercent waveB attackB effectB
      endPitchPercent endVolPercent timePercentA pitch volume duration : ℚ) : FlexFX :=
  ((((FlexFX.new id).setPartA (startPitchPercent/100) (startVolPercent/100)
      waveA attackA effectA (midPitchPercent/100) (midVolPercent/100)
      (timePercentA/100)).setPartB waveB attackB effectB
      (endPitchPercent/100) (endVolPercent/100)
      (100 - timePercentA/100)).setDefaults pitch volume duration)

/-- The recipe built by `create3PartFlexFX` before it is stored. -/
def create3PartFlexFXTarget (id : String)
    (startPitchPercent startVolPercent waveA attackA effectA
      pitchABPercent volABPercent waveB attackB effectB
      pitchBCPercent volBCPercent waveC attackC effectC
      endPitchPercent endVolPercent timePercentA timePercentB
      pitch volume duration : ℚ) : FlexFX :=
  (((((FlexFX.new id).setPartA (startPitchPercent/100) (startVolPercent/100)
      waveA attackA effectA (pitchABPercent/100) (volABPercent/100)
      (timePercentA/100)).setPartB waveB attackB effectB
      (pitchBCPercent/100) (volBCPercent/100)
      (timePercentB/100)).setPartC waveC attackC effectC
      (endPitchPercent/100) (endVolPercent/100)
      ((100 - timePercentA - timePercentB)/100)).setDefaults pitch volume duration)

/-- The recipe built by `createDoubleFlexFX` before it is stored (sound part,
silent gap, sound part; the second sound is stored as part C). -/
def createDoubleFlexFXTarget (id : String)
    (startPitchAPercent startVolAPercent waveA attackA effectA
      endPitchAPercent endVolAPercent startPitchBPercent startVolBPercent
      waveB attackB effectB endPitchBPercent endVolBPercent
      timePercentA timeGapPercent pitch volume duration : ℚ) : FlexFX :=
  (((((FlexFX.new id).setPartA (startPitchAPercent/100) (startVolAPercent/100)
      waveA attackA effectA (endPitchAPercent/100) (endVolAPercent/100)
      (timePercentA/100)).silentPartB (startPitchBPercent/100)
      (startVolBPercent/100) (timeGapPercent/100)).setPartC
      waveB attackB effectB (endPitchBPercent/100) (endVolBPercent/100)
      ((100 - timePercentA - timeGapPercent)/100)).setDefaults pitch volume duration)

/-- C5: every recipe built through the four public creation entry points,
with time-percentage arguments in [0, 100] summing to at most 100, has
declared `timeRatio` values summing to exactly 1: each part-setting call
clamps its time argument into [0, remaining budget]. -/
theorem C5_creation_ratios_sum_to_one :
    (∀ (id : String) (sp sv w a e ep ev p v d : ℚ),
      declaredRatioSum (createFlexFXTarget id sp sv w a e ep ev p v d) = 1) ∧
    (∀ (id : String) (sp sv wA aA eA mp mv wB aB eB ep ev tA p v d : ℚ),
      0 ≤ tA → tA ≤ 100 →
      declaredRatioSum
        (create2PartFlexFXTarget id sp sv wA aA eA mp mv wB aB eB ep ev tA p v d) = 1) ∧
    (∀ (id : String) (sp sv wA aA eA pAB vAB wB aB eB pBC vBC wC aC eC ep ev tA tB p v d : ℚ),
      0 ≤ tA → 0 ≤ tB → tA + tB ≤ 100 →
      declaredRatioSum
        (create3PartFlexFXTarget id sp sv wA aA eA pAB vAB wB aB eB pBC vBC
          wC aC eC ep ev tA tB p v d) = 1) ∧
    (∀ (id : String) (spA svA wA aA eA epA evA spB svB wB aB eB epB evB tA tG p v d : ℚ),
      0 ≤ tA → 0 ≤ tG → tA + tG ≤ 100 →
      declaredRatioSum
        (createDoubleFlexFXTarget id spA svA wA aA eA epA evA spB svB
          wB aB eB epB evB tA tG p v d) = 1) := by
  refine ⟨?_, ?_, ?_, ?_⟩
  · intro id sp sv w a e ep ev p v d
    simp [declaredRatioSum, createFlexFXTarget, FlexFX.setDefaults, FlexFX.setPartA,
      FlexFX.new, goodTimeRatio]
  · intro id sp sv wA aA eA mp mv wB aB eB ep ev tA p v d h0 h100
    have hA : goodTimeRatio (tA/100) 1 = tA/100 := by
      unfold goodTimeRatio
      rw [max_eq_left (by linarith), min_eq_left (by linarith)]
    simp only [declaredRatioSum, create2PartFlexFXTarget, FlexFX.setDefaults,
      FlexFX.setPartB, FlexFX.setPartA, FlexFX.new, hA]
    have hB : goodTimeRatio (100 - tA/100) (1 - tA/100) = 1 - tA/100 := by
      unfold goodTimeRatio
      rw [max_eq_left (by linarith), min_eq_right (by linarith)]
    simp [hB]
  · intro id sp sv wA aA eA pAB vAB wB aB eB pBC vBC wC aC eC ep ev tA tB p v d h0 h1 h100
    have hA : goodTimeRatio (tA/100) 1 = tA/100 := by
      unfold goodTimeRatio
      rw [max_eq_left (by linarith), min_eq_left (by linarith)]
    have hB : goodTimeRatio (tB/100) (1 - tA/100) = tB/100 := by
      unfold goodTimeRatio
      rw [max_eq_left (by linarith), min_eq_left (by linarith)]
    have hC : goodTimeRatio ((100 - tA - tB)/100) (1 - tA/100 - tB/100) =
        (100 - tA - tB)/100 := by
      unfold goodTimeRatio
      rw [max_eq_left (by linarith), min_eq_left (by linarith)]
    simp only [declaredRatioSum, create3PartFlexFXTarget, FlexFX.setDefaults,
      FlexFX.setPartC, FlexFX.setPartB, FlexFX.setPartA, FlexFX.new, hA, hB, hC]
    simp
    ring
  · intro id spA svA wA aA eA epA evA spB svB wB aB eB epB evB tA tG p v d h0 h1 h100
    have hA : goodTimeRatio (tA/100) 1 = tA/100 := by
      unfold goodTimeRatio
      rw [max_eq_left (by linarith), min_eq_left (by linarith)]
    have hB : goodTimeRatio (tG/100) (1 - tA/100) = tG/100 := by
      unfold goodTimeRatio
      rw [max_eq_left (by linarith), min_eq_left (by linarith)]
    have hC : goodTimeRatio ((100 - tA - tG)/100) (1 - tA/100 - tG/100) =
        (100 - tA - tG)/100 := by
      unfold goodTimeRatio
      rw [max_eq_left (by linarith), min_eq_left (by linarith)]
    simp only [declaredRatioSum, createDoubleFlexFXTarget, FlexFX.setDefaults,
      FlexFX.setPartC, FlexFX.silentPartB, FlexFX.setPartA, FlexFX.new, hA, hB, hC]
    simp
    ring

/-- Witness for C5: the four creation entry points at concrete arguments
(the built-in miaow, violin and siren parameters among them). -/
theorem C5_creation_ratios_sum_to_one_witness :
    declaredRatioSum (createFlexFXTarget "simple" 100 100 0 0 0 100 100 800 200 800) = 1 ∧
    declaredRatioSum
      (create2PartFlexFXTarget "miaow" 70 50 0 0 0 100 100 0 0 0 90 80 30 900 255 1000) = 1 ∧
    declaredRatioSum
      (create3PartFlexFXTarget "violin" 1 100 0 0 0 100 75 0 0 0 100 75 0 0 0
        10 100 10 85 440 200 500) = 1 ∧
    declaredRatioSum
      (createDoubleFlexFXTarget "siren" 95 80 0 0 0 100 100 70 100 0 0 0 75 80
        45 10 800 200 1000) = 1 := by
  refine ⟨?_, ?_, ?_, ?_⟩
  · exact C5_creation_ratios_sum_to_one.1 "simple" 100 100 0 0 0 100 100 800 200 800
  · exact C5_creation_ratios_sum_to_one.2.1 "miaow" 70 50 0 0 0 100 100 0 0 0 90 80 30
      900 255 1000 (by norm_num) (by norm_num)
  · exact C5_creation_ratios_sum_to_one.2.2.1 "violin" 1 100 0 0 0 100 75 0 0 0 100 75
      0 0 0 10 100 10 85 440 200 500 (by norm_num) (by norm_num) (by norm_num)
  · exact C5_creation_ratios_sum_to_one.2.2.2 "siren" 95 80 0 0 0 100 100 70 100 0 0 0
      75 80 45 10 800 200 1000 (by norm_num) (by norm_num) (by norm_num)

/-- `PLAYER.STARTING` event code. -/
def PLAYER.STARTING : Nat := 1

/-- `PLAYER.FINISHED` event code. -/
def PLAYER.FINISHED : Nat := 2

/-- `PLAYER.ALLPLAYED` event code. -/
def PLAYER.ALLPLAYED : Nat := 3

/-- Externally visible calls, recorded in order of execution:
`pause(n)`, `control.raiseEvent(FLEXFX_ACTIVITY_ID, e)`,
`music.playSoundEffect(s, UntilDone)`, writes to `playerPlaying`,
`control.waitForEvent(FLEXFX_ACTIVITY_ID, e)`, `control.inBackground(player)`. -/
inductive Act where
  | pause (n : ℤ)
  | raise (e : Nat)
  | playSound (s : Segment)
  | setPlaying (b : Bool)
  | waitEvent (e : Nat)
  | spawnPlayer
deriving DecidableEq

/-- The module-level mutable state of namespace `flexFX`: the recipe registry
`flexFXList`, the `playList`, and the three control flags. -/
structure State where
  flexFXList : List FlexFX
  playList : List Play
  playerPlaying : Bool
  playerActive : Bool
  playerStopped : Bool
deriving DecidableEq

/-- `activatePlayer()`: spawn the background worker unless the player is
already active or stopped. -/
def activatePlayer (st : State) : State × List Act :=
  if !(st.playerActive || st.playerStopped) then
    ({ st with playerActive := true }, [Act.spawnPlayer])
  else (st, [])

/-- The worker's inner loop step on one dequeued part: a string starting with
`'_'` is an in-performance gap (counts as playing), anything else is handed to
`music.playSoundEffect` (a stray `"s..."` string would be handed over too,
exactly as in the source). -/
def segAction : Segment → Act
  | .gap n => .pause n
  | s => .playSound s

/-- One iteration of the worker loop body on a dequeued Play: if its first
part starts with `'s'` (a queued pause from `performSilence`), only a `pause`
is performed — no events, no `playerPlaying` writes, and any further parts
are discarded; otherwise `STARTING` is raised, `playerPlaying` set, the parts
played in order, `FINISHED` raised and `playerPlaying` cleared. -/
def processPlay (p : Play) : List Act :=
  match p.parts with
  | Segment.pauseTag n :: _ => [Act.pause n]
  | parts =>
      [Act.raise PLAYER.STARTING, Act.setPlaying true]
      ++ parts.map segAction
      ++ [Act.raise PLAYER.FINISHED, Act.setPlaying false]

/-- The `while ((playList.length > 0) && !playerStopped)` loop of `player()`:
returns the actions performed and the part of the play-list left unplayed.
`playerStopped` is only written by other callers, so within one run of the
worker it is a constant. -/
def playerLoop (stopped : Bool) : List Play → List Act × List Play
  | [] => ([], [])
  | p :: rest =>
    if stopped then ([], p :: rest)
    else
      ((processPlay p) ++ (playerLoop stopped rest).1, (playerLoop stopped rest).2)

/-- `player()`: drain the play-list, then raise `ALLPLAYED` exactly when the
play-list was exhausted (not when prematurely stopped). The final
`playerActive = false` write is not an external call and is omitted from the
trace. -/
def player (stopped : Bool) (l : List Play) : List Act × List Play :=
  ((playerLoop stopped l).1
    ++ (if (playerLoop stopped l).2.length = 0 then [Act.raise PLAYER.ALLPLAYED] else []),
   (playerLoop stopped l).2)

/-- `performSilence(ms)`: push a one-part Play `"s"+Math.floor(ms)` and make
sure the player runs. -/
def performSilence (st : State) (ms : ℚ) : State × List Act :=
  let play : Play := { parts := [Segment.pauseTag (Int.floor ms)] }
  let st1 := { st with playList := st.playList ++ [play] }
  activatePlayer st1

/-- `awaitPlayStart()`: the guard in the source is `playList.length >= 0`
(a `length` is never negative, so the guard always holds); then clear
`playerStopped`, ensure the player is active, and block on `STARTING`. -/
def awaitPlayStart (st : State) : State × List Act :=
  if st.playList.length ≥ 0 then
    let st1 := { st with playerStopped := false }
    ((activatePlayer st1).1, (activatePlayer st1).2 ++ [Act.waitEvent PLAYER.STARTING])
  else (st, [])

/-- `awaitPlayFinish()`: block on `FINISHED` only while something is playing. -/
def awaitPlayFinish (st : State) : State × List Act :=
  if st.playerPlaying then (st, [Act.waitEvent PLAYER.FINISHED])
  else (st, [])

/-- `awaitAllFinished()`: same always-true `length >= 0` guard; clear
`playerStopped`, ensure the player is active, and block on `ALLPLAYED`. -/
def awaitAllFinished (st : State) : State × List Act :=
  if st.playList.length ≥ 0 then
    let st1 := { st with playerStopped := false }
    ((activatePlayer st1).1, (activatePlayer st1).2 ++ [Act.waitEvent PLAYER.ALLPLAYED])
  else (st, [])

/-- `playFlexFX(id, pitch, volume, duration, background)`: look the id up in
the registry; on a miss do nothing at all; on a hit compile the Play onto the
play-list, ensure the player runs, and in foreground mode block on
`ALLPLAYED`. -/
def playFlexFX (st : State) (id : String) (pitch volume duration : ℚ)
    (background : Bool) : State × List Act :=
  match st.flexFXList.find? (fun i => i.id == id) with
  | none => (st, [])
  | some target =>
      let st1 := { st with playList := st.playList ++ [compilePlay target pitch volume duration] }
      ((activatePlayer st1).1,
        (activatePlayer st1).2
          ++ (if background then [] else [Act.waitEvent PLAYER.ALLPLAYED]))

/-- The `builtInId` array of built-in recipe names. -/
def builtInId : List String :=
  ["laugh", "uh-oh", "scream", "cry", "moan",
   "shout", "violin", "horn", "sax", "flute",
   "tweet", "ting", "chime", "whale", "miaow",
   "cluck", "woof", "moo", "motor", "siren"]

/-- `Array.prototype.find(i => i.id === id)`: first match or `undefined`. -/
def jsFind (l : List FlexFX) (id : String) : Option FlexFX :=
  l.find? (fun i => i.id == id)

/-- First index `≥ fromIdx` holding `a`, if any (helper for `indexOf`). -/
def idxFrom : List FlexFX → FlexFX → Nat → Option Nat
  | [], _, _ => none
  | b :: rest, a, 0 => if b = a then some 0 else (idxFrom rest a 0).map (· + 1)
  | _ :: rest, a, n+1 => (idxFrom rest a n).map (· + 1)

/-- `Array.prototype.indexOf(x, fromIndex)`: `-1` when `x` is `undefined`
(no array element is `undefined`) or not found at an index `≥ fromIndex`.
JS compares by reference; recipes are compared structurally here, which
agrees with reference identity on the registries we consider. -/
def jsIndexOfFrom (l : List FlexFX) (x : Option FlexFX) (fromIdx : Nat) : Int :=
  match x with
  | none => -1
  | some a =>
    match idxFrom l a fromIdx with
    | none => -1
    | some k => (k : Int)

/-- `Array.prototype.splice(start, 1)`: a negative `start` counts from the
end (`max(length + start, 0)`), so `splice(-1, 1)` removes the LAST element. -/
def jsSplice1 (l : List FlexFX) (start : Int) : List FlexFX :=
  let len : Int := l.length
  let s := (if start < 0 then max (len + start) 0 else min start len).toNat
  l.take s ++ l.drop (s + 1)

/-- `storeFlexFX(builtIn, target)` on the registry list, exactly as written:
`flexFXList.splice(flexFXList.indexOf(flexFXList.find(i => i.id === target.id), 1), 1)`
— note the misplaced parenthesis: `1` is the `fromIndex` argument of
`indexOf`, and when the id is absent `find` gives `undefined`, `indexOf`
gives `-1` and `splice(-1, 1)` removes the last element. Then a built-in slot
below 1000 renames the recipe, and it is appended. -/
def storeFlexFX (builtIn : Nat) (target : FlexFX) (l : List FlexFX) : List FlexFX :=
  let removed := jsSplice1 l (jsIndexOfFrom l (jsFind l target.id) 1)
  let target1 := if builtIn < 1000 then { target with id := builtInId.getD builtIn "" }
                 else target
  removed ++ [target1]

/-- `createFlexFX(...)` acting on the registry. -/
def createFlexFX (id : String) (sp sv w a e ep ev p v d : ℚ) (builtIn : Nat)
    (reg : List FlexFX) : List FlexFX :=
  storeFlexFX builtIn (createFlexFXTarget id sp sv w a e ep ev p v d) reg

/-- `create2PartFlexFX(...)` acting on the registry. -/
def create2PartFlexFX (id : String) (sp sv wA aA eA mp mv wB aB eB ep ev tA p v d : ℚ)
    (builtIn : Nat) (reg : List FlexFX) : List FlexFX :=
  storeFlexFX builtIn
    (create2PartFlexFXTarget id sp sv wA aA eA mp mv wB aB eB ep ev tA p v d) reg

/-- `create3PartFlexFX(...)` acting on the registry. -/
def create3PartFlexFX (id : String)
    (sp sv wA aA eA pAB vAB wB aB eB pBC vBC wC aC eC ep ev tA tB p v d : ℚ)
    (builtIn : Nat) (reg : List FlexFX) : List FlexFX :=
  storeFlexFX builtIn
    (create3PartFlexFXTarget id sp sv wA aA eA pAB vAB wB aB eB pBC vBC
      wC aC eC ep ev tA tB p v d) reg

/-- `createDoubleFlexFX(...)` acting on the registry. -/
def createDoubleFlexFX (id : String)
    (spA svA wA aA eA epA evA spB svB wB aB eB epB evB tA tG p v d : ℚ)
    (builtIn : Nat) (reg : List FlexFX) : List FlexFX :=
  storeFlexFX builtIn
    (createDoubleFlexFXTarget id spA svA wA aA eA epA evA spB svB
      wB aB eB epB evB tA tG p v d) reg

/-- C2 (code bug): the source comment says the `splice` "works even when
missing!", but `indexOf` is called with `fromIndex = 1` (misplaced
parenthesis), so an absent id gives `indexOf(undefined, 1) = -1` and
`splice(-1, 1)` deletes the LAST stored recipe. Storing `"b"` into a registry
holding only `"a"` silently drops `"a"`. -/
theorem C2_store_on_fresh_id_drops_last_recipe :
    storeFlexFX 1000 (FlexFX.new "b") [FlexFX.new "a"] = [FlexFX.new "b"] := by
  rfl

/-- C3 (code bug): the guard in `awaitPlayStart` is `playList.length >= 0`,
which always holds, so even with an empty play-list the call issues
`waitForEvent(STARTING)` — it blocks instead of returning immediately as the
`// else nothing to wait for` comment intends. -/
theorem C3_awaitPlayStart_blocks_on_empty_playlist :
    (awaitPlayStart
        { flexFXList := [], playList := [], playerPlaying := false,
          playerActive := false, playerStopped := false }).2 =
      [Act.spawnPlayer, Act.waitEvent PLAYER.STARTING] := by
  rfl

/-- C7: dequeuing a queued pause (the one-part `"s"+n` Play that
`performSilence` enqueues) performs exactly a `pause`: no `Starting` or
`Finished` event, no write to `playerPlaying`, and the worker then continues
with the rest of the play-list unchanged. -/
theorem C7_queued_pause_is_not_playing (st : State) (ms : ℚ) (rest : List Play) :
    (performSilence st ms).1.playList =
      st.playList ++ [{ parts := [Segment.pauseTag (Int.floor ms)] }] ∧
    processPlay { parts := [Segment.pauseTag (Int.floor ms)] } =
      [Act.pause (Int.floor ms)] ∧
    (∀ e, Act.raise e ∉ processPlay { parts := [Segment.pauseTag (Int.floor ms)] }) ∧
    (∀ b, Act.setPlaying b ∉ processPlay { parts := [Segment.pauseTag (Int.floor ms)] }) ∧
    player false ({ parts := [Segment.pauseTag (Int.floor ms)] } :: rest) =
      (Act.pause (Int.floor ms) :: (player false rest).1, (player false rest).2) := by
  refine ⟨?_, rfl, ?_, ?_, ?_⟩
  · simp only [performSilence, activatePlayer]
    split <;> rfl
  · intro e
    simp [processPlay]
  · intro b
    simp [processPlay]
  · simp [player, playerLoop, processPlay]

/-- C8: both `awaitPlayStart` and `awaitAllFinished` (their always-true
guards aside) clear `playerStopped`, ensure the worker is active (spawning it
exactly when it was not), and only then block on their event. -/
theorem C8_awaits_clear_stop_and_start_player (st : State) :
    ((awaitPlayStart st).1.playerStopped = false ∧
      (awaitPlayStart st).1.playerActive = true ∧
      (awaitPlayStart st).2 =
        (if st.playerActive then [] else [Act.spawnPlayer])
          ++ [Act.waitEvent PLAYER.STARTING]) ∧
    ((awaitAllFinished st).1.playerStopped = false ∧
      (awaitAllFinished st).1.playerActive = true ∧
      (awaitAllFinished st).2 =
        (if st.playerActive then [] else [Act.spawnPlayer])
          ++ [Act.waitEvent PLAYER.ALLPLAYED]) := by
  cases hA : st.playerActive <;>
    simp [awaitPlayStart, awaitAllFinished, activatePlayer, hA]

/-- C9: an id missing from the registry makes `playFlexFX` a complete no-op:
the state (registry, play-list, all three flags) is returned unchanged and no
external call — no enqueue, no event, no wait — is made. -/
theorem C9_unknown_id_is_silent_noop (st : State) (id : String) (p v d : ℚ)
    (b : Bool) (h : st.flexFXList.find? (fun i => i.id == id) = none) :
    playFlexFX st id p v d b = (st, []) := by
  simp [playFlexFX, h]

/-- Witness for C9: playing `"laugh"` against a registry holding only
`"ting"` changes nothing and performs nothing. -/
theorem C9_unknown_id_is_silent_noop_witness :
    playFlexFX
        { flexFXList := [FlexFX.new "ting"], playList := [], playerPlaying := false,
          playerActive := false, playerStopped := false } "laugh" 1 2 3 true =
      ({ flexFXList := [FlexFX.new "ting"], playList := [], playerPlaying := false,
          playerActive := false, playerStopped := false }, []) :=
  C9_unknown_id_is_silent_noop _ "laugh" 1 2 3 true rfl

/-- `segAction` never produces an event. -/
theorem segAction_ne_raise (s : Segment) (e : Nat) : segAction s ≠ Act.raise e := by
  cases s <;> simp [segAction]

/-- `processPlay` never raises `ALLPLAYED` (only `STARTING`/`FINISHED`). -/
theorem allplayed_not_in_processPlay (p : Play) :
    Act.raise PLAYER.ALLPLAYED ∉ processPlay p := by
  intro hmem
  rcases p with ⟨parts⟩
  rcases parts with _ | ⟨s, rest⟩
  · simp [processPlay, PLAYER.STARTING, PLAYER.FINISHED, PLAYER.ALLPLAYED] at hmem
  · rcases s with ⟨w, f1, f2, v1, v2, dur, e, a⟩ | n | n
    · simp [processPlay, PLAYER.STARTING, PLAYER.FINISHED, PLAYER.ALLPLAYED] at hmem
      rcases hmem with h1 | ⟨x, -, hx⟩
      · exact segAction_ne_raise _ _ h1.symm
      · exact segAction_ne_raise x _ hx
    · simp [processPlay, PLAYER.STARTING, PLAYER.FINISHED, PLAYER.ALLPLAYED] at hmem
      rcases hmem with h1 | ⟨x, -, hx⟩
      · exact segAction_ne_raise _ _ h1.symm
      · exact segAction_ne_raise x _ hx
    · simp [processPlay] at hmem

/-- The worker loop itself never raises `ALLPLAYED`. -/
theorem allplayed_not_in_playerLoop (stopped : Bool) (l : List Play) :
    Act.raise PLAYER.ALLPLAYED ∉ (playerLoop stopped l).1 := by
  cases stopped with
  | true =>
    cases l <;> simp [playerLoop]
  | false =>
    induction l with
    | nil => simp [playerLoop]
    | cons p rest ih =>
      intro hmem
      simp [playerLoop] at hmem
      rcases hmem with h | h
      · exact allplayed_not_in_processPlay p h
      · exact ih h

/-- C10: a foreground `playFlexFX` on a registered id appends its compiled
Play to the play-list and its very last external call is a blocking wait on
`ALLPLAYED`; and the worker raises `ALLPLAYED` only when the whole play-list
has drained — so the foreground call waits for everything queued, not just
its own Play. -/
theorem C10_foreground_play_waits_for_drain (st : State) (id : String)
    (p v d : ℚ) (t : FlexFX)
    (h : st.flexFXList.find? (fun i => i.id == id) = some t) :
    (playFlexFX st id p v d false).1.playList =
      st.playList ++ [compilePlay t p v d] ∧
    (playFlexFX st id p v d false).2.getLast? =
      some (Act.waitEvent PLAYER.ALLPLAYED) ∧
    (∀ stopped l, Act.raise PLAYER.ALLPLAYED ∈ (player stopped l).1 →
      (player stopped l).2 = []) := by
  refine ⟨?_, ?_, ?_⟩
  · simp only [playFlexFX, h, activatePlayer]
    split <;> rfl
  · simp only [playFlexFX, h, activatePlayer]
    split <;> rfl
  · intro stopped l hmem
    unfold player at hmem ⊢
    by_cases h0 : (playerLoop stopped l).2.length = 0
    · exact List.length_eq_zero.mp h0
    · simp only [h0, if_false] at hmem
      rw [List.append_nil] at hmem
      exact absurd hmem (allplayed_not_in_playerLoop stopped l)

/-- Witness for C10 at a one-recipe registry. -/
theorem C10_foreground_play_waits_for_drain_witness :
    (playFlexFX
        { flexFXList := [FlexFX.new "x"], playList := [], playerPlaying := false,
          playerActive := false, playerStopped := false } "x" 1 1 1 false).1.playList =
      [] ++ [compilePlay (FlexFX.new "x") 1 1 1] ∧
    (playFlexFX
        { flexFXList := [FlexFX.new "x"], playList := [], playerPlaying := false,
          playerActive := false, playerStopped := false } "x" 1 1 1 false).2.getLast? =
      some (Act.waitEvent PLAYER.ALLPLAYED) ∧
    (∀ stopped l, Act.raise PLAYER.ALLPLAYED ∈ (player stopped l).1 →
      (player stopped l).2 = []) :=
  C10_foreground_play_waits_for_drain _ "x" 1 1 1 (FlexFX.new "x") rfl
